import Mathlib

/-!
Verification development for the clinical-trial matching assistant
(backend sources: llm_service.py, matching_engine.py, ct_service.py,
clinical_radar_service.py, models.py).

The external services (the text-generation oracle, the trials registry,
the geodesic distance library, the alert store) are modelled as explicit
parameters; everything else is translated directly from the Python source.
Python strings are modelled through their character lists, so that the
truthiness tests and slice operations of the source translate exactly.
-/

/-! ## Python string primitives

Each helper mirrors one Python `str` operation used by the source
(`strip`, `startswith`, `endswith`, slicing).  They operate on the
character list of the string, matching Python's code-point semantics. -/

def py_strip (s : String) : String :=
  String.mk (((s.data.dropWhile Char.isWhitespace).reverse.dropWhile Char.isWhitespace).reverse)

def py_startswith (pre s : String) : Bool :=
  pre.data.isPrefixOf s.data

def py_endswith (suf s : String) : Bool :=
  suf.data.isSuffixOf s.data

/-- Python `s[n:]`. -/
def py_drop (n : ℕ) (s : String) : String :=
  String.mk (s.data.drop n)

/-- Python `s[:-n]`. -/
def py_dropright (n : ℕ) (s : String) : String :=
  String.mk (s.data.take (s.data.length - n))

/-- Python `s[:n]`. -/
def py_take (n : ℕ) (s : String) : String :=
  String.mk (s.data.take n)

/-- Python falsiness of a string: `not s` holds iff `s` is empty. -/
def py_str_empty (s : String) : Bool :=
  s.data.isEmpty

/-- The markdown code-fence stripping sequence that every oracle call site
repeats on the (already `strip`ped) response text:

    if text.startswith("```json"): text = text[7:]
    if text.startswith("```"):     text = text[3:]
    if text.endswith("```"):       text = text[:-3]
    text = text.strip()
-/
def strip_code_fences (t0 : String) : String :=
  let t1 := if py_startswith "```json" t0 then py_drop 7 t0 else t0
  let t2 := if py_startswith "```" t1 then py_drop 3 t1 else t1
  let t3 := if py_endswith "```" t2 then py_dropright 3 t2 else t2
  py_strip t3

/-! ## Data model (models.py, Pydantic classes) -/

/-- models.py `Location`. Coordinates are modelled as rationals: the
claims under study concern only presence, zero tests and order
comparisons of the float values, never float rounding. -/
structure Location where
  facility : String
  city : String
  state : Option String
  country : String
  lat : Option ℚ
  lng : Option ℚ
  deriving DecidableEq, Repr

/-- models.py `LocationInput` (the patient-side location). -/
structure LocationInput where
  city : String
  country : String
  lat : Option ℚ
  lng : Option ℚ
  deriving DecidableEq, Repr

/-- models.py `PatientProfile`.  `biomarkers : Dict[str, Any]` is modelled
as an association list of string pairs; `ecog : Union[int, str]` as a sum. -/
structure PatientProfile where
  condition : String
  condition_normalized : Option String
  histology : Option String
  stage : Option String
  line_of_therapy : Option String
  prior_treatments : List String
  current_treatments : Option (List String)
  biomarkers : List (String × String)
  ecog : Option (ℤ ⊕ String)
  age : Option ℤ
  sex : Option String
  cns_involvement : Option Bool
  metastatic_sites : Option (List String)
  comorbidities : Option (List String)
  organ_function : Option String
  location : Option LocationInput
  deriving DecidableEq, Repr

/-- models.py `TrialMatch`. -/
structure TrialMatch where
  nct_id : String
  title : String
  phase : String
  fit_score : ℤ
  fit_category : String
  nearest_site : Option Location
  distance_km : Option ℚ
  meets_criteria : List String
  fails_criteria : List String
  missing_info : List String
  explanation : String
  deriving DecidableEq, Repr

/-- An evaluation dictionary as parsed from oracle JSON or synthesized by
the fallback code.  Every field is optional because the consumers read the
dict with `.get(key, default)`; a `none` field models an absent key. -/
structure EvalDict where
  nct_id : Option String
  fit_score : Option ℤ
  fit_category : Option String
  meets_criteria : Option (List String)
  fails_criteria : Option (List String)
  missing_info : Option (List String)
  explanation : Option String
  deriving DecidableEq, Repr

/-- A trial dictionary as submitted to `batch_evaluate_eligibility`
(`trials: List[Dict[str, Any]]`); the code reads it only through
`.get(key, default)`, so each accessed key is optional. -/
structure BatchTrial where
  nct_id : Option String
  title : Option String
  phase : Option String
  eligibility_criteria : Option String
  deriving DecidableEq, Repr

/-! ## LLMService (llm_service.py)

The oracle (`model.generate_content`) and the Python JSON parser
(`json.loads` plus Pydantic validation) are external; they enter as
parameters.  An oracle parameter of `none` models any exception raised
inside the `try` block before the fallback (`except Exception`) fires. -/

namespace LLMService

/-- `PatientProfile(condition="Unknown")`: the fallback profile built by
both extractors on any failure; every other field takes its Pydantic
default. -/
def minimal_profile : PatientProfile :=
  { condition := "Unknown"
    condition_normalized := none
    histology := none
    stage := none
    line_of_therapy := none
    prior_treatments := []
    current_treatments := none
    biomarkers := []
    ecog := none
    age := none
    sex := none
    cns_involvement := none
    metastatic_sites := none
    comorbidities := none
    organ_function := none
    location := none }

/-- llm_service.py `extract_patient_profile` (lines 80-136).
`oracleText = none` models an oracle exception; `parse` models
`json.loads` followed by `PatientProfile(**profile_data)`, returning
`none` when either raises. -/
def extract_patient_profile (oracleText : Option String)
    (parse : String → Option PatientProfile) : PatientProfile :=
  match oracleText with
  | none => minimal_profile
  | some raw =>
    match parse (strip_code_fences (py_strip raw)) with
    | some profile => profile
    | none => minimal_profile

/-- llm_service.py `extract_profile_from_image` (lines 20-78); identical
failure contract, except that the `try` block also covers decoding the
image (a failure there is one more way for the oracle side to fail). -/
def extract_profile_from_image (oracleText : Option String)
    (parse : String → Option PatientProfile) : PatientProfile :=
  match oracleText with
  | none => minimal_profile
  | some raw =>
    match parse (strip_code_fences (py_strip raw)) with
    | some profile => profile
    | none => minimal_profile

/-- The fixed degraded evaluation returned by `evaluate_eligibility` when
the oracle call or the JSON parse raises (llm_service.py lines 256-265). -/
def single_error_eval : EvalDict :=
  { nct_id := none
    fit_score := some 30
    fit_category := some "weak"
    meets_criteria := some []
    fails_criteria := some []
    missing_info := some ["Unable to evaluate - system error"]
    explanation := some "Error occurred during evaluation. Please review manually." }

/-- llm_service.py `evaluate_eligibility` (lines 197-265): the parsed
oracle response is returned unchanged; only a failure (`none`) is replaced
by the degraded evaluation. -/
def evaluate_eligibility (oracleEval : Option EvalDict) : EvalDict :=
  match oracleEval with
  | some evaluation => evaluation
  | none => single_error_eval

/-- The padding evaluation appended for each trial beyond the end of the
oracle's batch array (llm_service.py lines 341-350). -/
def batch_pad_eval (trial : BatchTrial) : EvalDict :=
  { nct_id := some (trial.nct_id.getD "Unknown")
    fit_score := some 40
    fit_category := some "weak"
    meets_criteria := some []
    fails_criteria := some []
    missing_info := some ["Evaluation not completed"]
    explanation := some "Trial needs manual review." }

/-- The per-trial evaluation synthesized when the whole batch call fails
(llm_service.py lines 354-365). -/
def batch_fail_eval (trial : BatchTrial) : EvalDict :=
  { nct_id := some (trial.nct_id.getD "Unknown")
    fit_score := some 40
    fit_category := some "weak"
    meets_criteria := some []
    fails_criteria := some []
    missing_info := some ["Batch evaluation failed"]
    explanation := some "Could not evaluate. Please review manually." }

/-- llm_service.py `batch_evaluate_eligibility` (lines 267-365).
`oracleEvals = some evs` models a response whose JSON parsed to the array
`evs`; `none` models an oracle or parse failure.  The source pads a short
array in trial order (`for i in range(len(evaluations), len(trials))`)
and returns any array of length ≥ `len(trials)` unchanged. -/
def batch_evaluate_eligibility (trials : List BatchTrial)
    (oracleEvals : Option (List EvalDict)) : List EvalDict :=
  match oracleEvals with
  | none => trials.map batch_fail_eval
  | some evaluations =>
    if evaluations.length < trials.length then
      evaluations ++ (trials.drop evaluations.length).map batch_pad_eval
    else
      evaluations

end LLMService

/-! ## MatchingEngine (matching_engine.py)

The geodesic distance (geopy's `geodesic(...).kilometers`, wrapped in
`try/except`) is external: it enters as a parameter
`dist : ℚ × ℚ → ℚ × ℚ → Option ℚ`, where `none` models an exception.
The Python truthiness tests of the source (`if location.lat and
location.lng`, `if distance and distance < min_distance`,
`m.distance_km if m.distance_km else float('inf')`) are translated as
explicit zero/`none` tests. -/

namespace MatchingEngine

/-- matching_engine.py `calculate_distance` (lines 10-22). -/
def calculate_distance (dist : ℚ × ℚ → ℚ × ℚ → Option ℚ)
    (patient_location : Option (ℚ × ℚ)) (trial_location : ℚ × ℚ) : Option ℚ :=
  match patient_location with
  | none => none
  | some p => dist p trial_location

/-- One iteration of the `for location in trial_locations` loop of
`find_nearest_site`; the accumulator bundles `nearest_site` with
`min_distance` (`none` = no site yet, `min_distance` still `inf`). -/
def nearest_step (dist : ℚ × ℚ → ℚ × ℚ → Option ℚ) (p : ℚ × ℚ)
    (acc : Option (Location × ℚ)) (location : Location) : Option (Location × ℚ) :=
  match location.lat, location.lng with
  | some la, some ln =>
    -- Python: `if location.lat and location.lng` (0.0 is falsy)
    if la ≠ 0 ∧ ln ≠ 0 then
      match calculate_distance dist (some p) (la, ln) with
      | some d =>
        -- Python: `if distance and distance < min_distance` (0.0 is falsy)
        if d ≠ 0 then
          match acc with
          | none => some (location, d)
          | some best => if d < best.2 then some (location, d) else acc
        else acc
      | none => acc
    else acc
  | _, _ => acc

/-- matching_engine.py `find_nearest_site` (lines 24-46). -/
def find_nearest_site (dist : ℚ × ℚ → ℚ × ℚ → Option ℚ)
    (patient_location : Option (ℚ × ℚ)) (trial_locations : List Location) :
    Option Location × Option ℚ :=
  match patient_location with
  | none => (none, none)
  | some p =>
    if trial_locations.isEmpty then (none, none)
    else
      let best := trial_locations.foldl (nearest_step dist p) none
      (best.map Prod.fst, best.map Prod.snd)

/-- The secondary component of the sort key of
`match_patient_to_trials`: `m.distance_km if m.distance_km else
float('inf')`.  `none` stands for `float('inf')`; a stored distance of 0
is falsy in Python and therefore also keys as infinity. -/
def distance_sort_key (distance_km : Option ℚ) : Option ℚ :=
  match distance_km with
  | some d => if d = 0 then none else some d
  | none => none

/-- Order on the secondary key: finite values ascending, infinity last. -/
def dist_key_le : Option ℚ → Option ℚ → Bool
  | some a, some b => decide (a ≤ b)
  | some _, none => true
  | none, some _ => false
  | none, none => true

/-- The comparison realized by `matches.sort(key=lambda m: (-m.fit_score,
m.distance_km if m.distance_km else float('inf')))`: lexicographic on
(`-fit_score` ascending, distance key ascending). -/
def rank_le (a b : TrialMatch) : Bool :=
  decide (b.fit_score < a.fit_score) ||
    (decide (a.fit_score = b.fit_score) && dist_key_le (distance_sort_key a.distance_km) (distance_sort_key b.distance_km))

/-- The sorting stage of `match_patient_to_trials` (matching_engine.py
lines 101-107).  Python's `list.sort` is a stable sort by the key above;
`List.mergeSort` is the stable sort of the same comparison. -/
def rank_sort (ms : List TrialMatch) : List TrialMatch :=
  ms.mergeSort rank_le

/-- The ranking stage of `match_patient_to_trials` (matching_engine.py
lines 101-110): stable sort by the key, then `matches[:max_results]`. -/
def rank_matches (ms : List TrialMatch) (max_results : ℕ) : List TrialMatch :=
  (rank_sort ms).take max_results

/-- matching_engine.py `match_patient_to_trial` (lines 48-86): build one
`TrialMatch` from the nearest-site scan and the oracle evaluation. -/
def match_patient_to_trial (dist : ℚ × ℚ → ℚ × ℚ → Option ℚ)
    (patient_coords : Option (ℚ × ℚ))
    (nct_id title phase : String) (trial_locations : List Location)
    (oracleEval : Option EvalDict) : TrialMatch :=
  let nearest := find_nearest_site dist patient_coords trial_locations
  let evaluation := LLMService.evaluate_eligibility oracleEval
  { nct_id := nct_id
    title := title
    phase := phase
    fit_score := evaluation.fit_score.getD 0
    fit_category := evaluation.fit_category.getD "weak"
    nearest_site := nearest.1
    distance_km := nearest.2
    meets_criteria := evaluation.meets_criteria.getD []
    fails_criteria := evaluation.fails_criteria.getD []
    missing_info := evaluation.missing_info.getD []
    explanation := evaluation.explanation.getD "" }

end MatchingEngine

/-! ## ClinicalTrialsService (ct_service.py)

The registry HTTP call is external.  A parameter `registry = none` models
any exception in the request block (network error, or the non-2xx status
raised by `raise_for_status`); `some studies` models a 2xx response whose
body held the list obtained by `data.get("studies", [])`.  Each raw study
is a nested JSON record read defensively through `.get`; the model keeps
one optional field per leaf value the parser reads (an absent enclosing
module makes its leaves read as absent). -/

namespace ClinicalTrialsService

/-- One entry of a study's `contactsLocationsModule.locations` array, as
read by `_parse_study`. -/
structure RawLocation where
  facility : Option String
  city : Option String
  state : Option String
  country : Option String
  deriving DecidableEq, Repr

/-- One raw study record from the registry response, restricted to the
leaves `_parse_study` reads. -/
structure RawStudy where
  nctId : Option String
  briefTitle : Option String
  phases : Option (List String)
  overallStatus : Option String
  conditions : Option (List String)
  interventionNames : Option (List (Option String))
  eligibilityCriteria : Option String
  minimumAge : Option String
  maximumAge : Option String
  sex : Option String
  sponsorName : Option String
  locations : Option (List RawLocation)
  deriving DecidableEq, Repr

/-- The flat trial dictionary produced by `_parse_study`
(ct_service.py lines 49-103); every key is present in it. -/
structure ParsedTrial where
  nct_id : String
  title : String
  phase : String
  status : String
  conditions : List String
  interventions : List String
  eligibility_criteria : String
  min_age : String
  max_age : String
  sex : String
  sponsor : String
  locations : List Location
  deriving DecidableEq, Repr

/-- One parsed location dict entry (ct_service.py lines 69-77): string
defaults filled in, coordinates explicitly set to `None`. -/
def parse_location (loc : RawLocation) : Location :=
  { facility := loc.facility.getD "Unknown"
    city := loc.city.getD ""
    state := some (loc.state.getD "")
    country := loc.country.getD ""
    lat := none
    lng := none }

/-- ct_service.py `_parse_study` (lines 49-103). -/
def parse_study (study : RawStudy) : ParsedTrial :=
  { nct_id := study.nctId.getD ""
    title := study.briefTitle.getD ""
    -- `", ".join(phases) if phases else "N/A"`: an absent or empty list is falsy
    phase := match study.phases with
             | some (p :: ps) => String.intercalate ", " (p :: ps)
             | _ => "N/A"
    status := study.overallStatus.getD ""
    conditions := study.conditions.getD []
    interventions := (study.interventionNames.getD []).map (fun n => n.getD "")
    eligibility_criteria := study.eligibilityCriteria.getD "No eligibility criteria provided"
    min_age := study.minimumAge.getD ""
    max_age := study.maximumAge.getD ""
    sex := study.sex.getD "ALL"
    sponsor := study.sponsorName.getD "Unknown"
    locations := (study.locations.getD []).take 10 |>.map parse_location }

/-- ct_service.py `search_trials` (lines 14-47): on any request failure
the `except` returns `[]`; otherwise every returned study is parsed. -/
def search_trials (registry : Option (List RawStudy)) : List ParsedTrial :=
  match registry with
  | none => []
  | some studies => studies.map parse_study

/-- The view of a parsed trial that `batch_evaluate_eligibility` reads
through `.get`: every accessed key exists on a `_parse_study` dict. -/
def to_batch_trial (trial : ParsedTrial) : BatchTrial :=
  { nct_id := some trial.nct_id
    title := some trial.title
    phase := some trial.phase
    eligibility_criteria := some trial.eligibility_criteria }

/-- The inline default evaluation used when `i >= len(evaluations)`
(ct_service.py lines 128-135). -/
def not_evaluated_eval : EvalDict :=
  { nct_id := none
    fit_score := some 40
    fit_category := some "weak"
    meets_criteria := some []
    fails_criteria := some []
    missing_info := some ["Not evaluated"]
    explanation := some "Trial needs manual review." }

/-- The nearest-site value built in ct_service.py lines 141-149: the
trial's first parsed location re-wrapped as a `Location` model with the
coordinate fields left at their `None` defaults. -/
def first_location_site (first_loc : Location) : Location :=
  { facility := first_loc.facility
    city := first_loc.city
    state := first_loc.state
    country := first_loc.country
    lat := none
    lng := none }

/-- The match object built for trial `i` (ct_service.py lines 125-166). -/
def build_match (trial : ParsedTrial) (evaluation : EvalDict) : TrialMatch :=
  { nct_id := trial.nct_id
    title := trial.title
    phase := trial.phase
    fit_score := evaluation.fit_score.getD 40
    fit_category := evaluation.fit_category.getD "weak"
    nearest_site := trial.locations.head?.map first_location_site
    distance_km := none
    meets_criteria := evaluation.meets_criteria.getD []
    fails_criteria := evaluation.fails_criteria.getD []
    missing_info := evaluation.missing_info.getD []
    explanation := evaluation.explanation.getD "No explanation available." }

/-- `matches.sort(key=lambda x: x.fit_score, reverse=True)`: a stable
descending sort on the score alone (ct_service.py line 173). -/
def fit_desc (a b : TrialMatch) : Bool :=
  decide (b.fit_score ≤ a.fit_score)

/-- ct_service.py `match_patient_to_trials` (lines 105-177).  The second
component records whether the batch-evaluation stage was reached: the
source returns `[]` before calling `LLMService.batch_evaluate_eligibility`
whenever retrieval produced no trials.  (The per-trial `try/except` of the
source is vacuous here: no step of the loop body can raise.) -/
def match_patient_to_trials (registry : Option (List RawStudy))
    (oracleEvals : Option (List EvalDict)) : List TrialMatch × Bool :=
  let trials := search_trials registry
  if trials.isEmpty then ([], false)
  else
    let evaluations := LLMService.batch_evaluate_eligibility (trials.map to_batch_trial) oracleEvals
    let ms := trials.enum.map fun p =>
      build_match p.2 ((evaluations[p.1]?).getD not_evaluated_eval)
    (ms.mergeSort fit_desc, true)

end ClinicalTrialsService

/-! ## ClinicalRadarService (clinical_radar_service.py)

The web-grounded oracle is external: a scan outcome is either an
exception anywhere in the `try` block (`failure msg`, producing the
`"Search error: ..."` fallback) or a response with text and the citation
list extracted from grounding metadata.  The two text-parsing attempts
(`re.search` for an object containing `"drug"`, then `json.loads` of the
full text) are stdlib calls and enter as parameters. -/

namespace ClinicalRadarService

/-- A citation extracted from grounding metadata (`{title, url}`). -/
structure Citation where
  title : String
  url : String
  deriving DecidableEq, Repr

/-- The finding dictionary returned by `perform_ambient_search`.  Keys
that some paths leave absent are optional; `sources = none` models a
parsed JSON body that carried no `"sources"` key. -/
structure Finding where
  drug : String
  found_update : Bool
  category : Option String
  severity : Option String
  title : Option String
  description : String
  date : Option String
  source : Option String
  source_url : Option String
  sources : Option (List Citation)
  deriving DecidableEq, Repr

/-- Outcome of `re.search(r'\x7b[^\x7b\x7d]*"drug"[^\x7b\x7d]*\x7d', text)`
followed by `json.loads(json_match.group())`:
no match, a match that parsed, or a match whose parse raised
(that exception escapes to the outer `except`). -/
inductive RegexOutcome where
  | noMatch : RegexOutcome
  | parsed : Finding → RegexOutcome
  | unparseable : String → RegexOutcome
  deriving DecidableEq, Repr

/-- Outcome of the grounded oracle call: an exception with its message,
or a response (`text` may be empty, `citations` from grounding metadata). -/
inductive RadarOracle where
  | failure : String → RadarOracle
  | success : String → List Citation → RadarOracle
  deriving DecidableEq, Repr

/-- The `except` fallback of `perform_ambient_search`
(clinical_radar_service.py lines 195-204). -/
def search_error_finding (treatment msg : String) : Finding :=
  { drug := treatment
    found_update := false
    category := none
    severity := none
    title := none
    description := "Search error: " ++ msg
    date := none
    source := none
    source_url := none
    sources := some [] }

/-- Step 4 of the repair ladder (clinical_radar_service.py lines
183-191): overwrite the source fields with the real citations if any
exist, else mark the search engine with an empty citation list. -/
def attach_citations (data : Finding) (citations : List Citation) : Finding :=
  match citations with
  | c :: rest =>
    { data with
        sources := some (c :: rest)
        source := some c.title
        source_url := some c.url }
  | [] =>
    { data with
        source := some "Google Search"
        source_url := some ""
        sources := some [] }

/-- clinical_radar_service.py `perform_ambient_search` (lines 70-204).
`today` stands for `str(date.today())`; `jsonParse` for `json.loads` of
the stripped text (`none` = `JSONDecodeError`). -/
def perform_ambient_search (treatment today : String) (oracle : RadarOracle)
    (regexExtract : String → RegexOutcome)
    (jsonParse : String → Option Finding) : Finding :=
  match oracle with
  | .failure msg => search_error_finding treatment msg
  | .success rawText citations =>
    let text := py_strip rawText
    if py_str_empty text then
      match citations with
      | c :: rest =>
        { drug := treatment
          found_update := true
          category := some "TRIAL_UPDATE"
          severity := some "medium"
          title := some ("Recent updates found for " ++ treatment)
          description := "Found " ++ toString (c :: rest).length ++ " relevant sources with recent information."
          date := some today
          source := some c.title
          source_url := some c.url
          sources := some (c :: rest) }
      | [] =>
        { drug := treatment
          found_update := false
          category := none
          severity := none
          title := none
          description := "No response from search"
          date := none
          source := none
          source_url := none
          sources := some [] }
    else
      let text := strip_code_fences text
      match regexExtract text with
      | .unparseable msg => search_error_finding treatment msg
      | .parsed data => attach_citations data citations
      | .noMatch =>
        let data :=
          if ¬ py_str_empty text then
            match jsonParse text with
            | some d => d
            | none =>
              { drug := treatment
                found_update := true
                category := some "TRIAL_UPDATE"
                severity := some "medium"
                title := some ("Update for " ++ treatment)
                description := py_take 500 text
                date := some today
                source := none
                source_url := none
                sources := none }
          else
            { drug := treatment
              found_update := false
              category := none
              severity := none
              title := none
              description := "No structured data returned"
              date := none
              source := none
              source_url := none
              sources := some [] }
        attach_citations data citations

/-- A stored alert row (`RadarAlertORM`). -/
structure StoredAlert where
  drug : String
  category : String
  severity : String
  title : String
  description : String
  source : String
  source_url : Option String
  date : String
  is_new : Bool
  deriving DecidableEq, Repr

/-- An incoming alert dictionary for `save_alerts`; `drug` and `title`
are accessed with `alert_data[...]` (required), the rest with `.get`. -/
structure AlertData where
  drug : String
  title : String
  category : Option String
  severity : Option String
  description : Option String
  source : Option String
  source_url : Option String
  date : Option String
  deriving DecidableEq, Repr

/-- The row inserted for a non-duplicate alert (clinical_radar_service.py
lines 273-284); `today` stands for `str(date.today())`. -/
def new_alert_row (today : String) (a : AlertData) : StoredAlert :=
  { drug := a.drug
    category := a.category.getD "info"
    severity := a.severity.getD "low"
    title := a.title
    description := a.description.getD ""
    source := a.source.getD "Unknown"
    source_url := a.source_url
    date := a.date.getD today
    is_new := true }

/-- The duplicate probe of `save_alerts`: an existing row with the same
`(drug, title)` pair. -/
def same_key (drug title : String) (row : StoredAlert) : Bool :=
  row.drug == drug && row.title == title

/-- clinical_radar_service.py `save_alerts` (lines 255-286).  The store
is the alert table as a list of rows; the session autoflushes pending
inserts before each duplicate `select`, so within one call each insert is
visible to the checks that follow it. -/
def save_alerts (today : String) (store : List StoredAlert)
    (alerts : List AlertData) : List StoredAlert :=
  alerts.foldl
    (fun st a =>
      if st.any (same_key a.drug a.title) then st
      else st ++ [new_alert_row today a])
    store

end ClinicalRadarService

/-! ## Spec-side definitions

Definitions in this section are translated from the specification's/claims'
words (they never restate the source); each theorem comparing them with a
source function says which claim it settles. -/

/-- Spec 4.4/8: the category demanded for a score by the bands
80-100 strong, 50-79 moderate, 20-49 weak, 0-19 ineligible. -/
def band_matches (score : ℤ) (cat : String) : Prop :=
  (80 ≤ score ∧ score ≤ 100 → cat = "strong") ∧
  (50 ≤ score ∧ score ≤ 79 → cat = "moderate") ∧
  (20 ≤ score ∧ score ≤ 49 → cat = "weak") ∧
  (0 ≤ score ∧ score ≤ 19 → cat = "ineligible")

instance (score : ℤ) (cat : String) : Decidable (band_matches score cat) := by
  unfold band_matches; infer_instance

/-- The band check applied to an evaluation dict, reading the fields the
way the downstream consumers do. -/
def eval_band_ok (e : EvalDict) : Prop :=
  band_matches (e.fit_score.getD 0) (e.fit_category.getD "")

instance (e : EvalDict) : Decidable (eval_band_ok e) := by
  unfold eval_band_ok; infer_instance

/-- C2's claimed order on ranked matches: fit_score descending, ties by
distance_km ascending with an absent distance after every present one. -/
def claimed_rank_le (a b : TrialMatch) : Prop :=
  b.fit_score < a.fit_score ∨
    (a.fit_score = b.fit_score ∧
      match a.distance_km, b.distance_km with
      | some x, some y => x ≤ y
      | some _, none => True
      | none, none => True
      | none, some _ => False)

/-- C4's claimed nearest-site scan: every candidate with both `lat` and
`lng` present participates; the minimum distance wins, the first
candidate encountered winning exact ties. -/
def nearest_claimed (dist : ℚ × ℚ → ℚ × ℚ → Option ℚ) (p : ℚ × ℚ) :
    List Location → Option (Location × ℚ)
  | [] => none
  | location :: rest =>
    let best := nearest_claimed dist p rest
    match location.lat, location.lng with
    | some la, some ln =>
      match dist p (la, ln) with
      | some d =>
        match best with
        | none => some (location, d)
        | some b => if d ≤ b.2 then some (location, d) else some b
      | none => best
    | _, _ => best

/-- The amended C4 scan: a candidate participates only when `lat` and
`lng` are both present and nonzero and its computed distance is defined
and nonzero; among participants the first minimum-distance candidate
wins. -/
def nearest_eligible (dist : ℚ × ℚ → ℚ × ℚ → Option ℚ) (p : ℚ × ℚ) :
    List Location → Option (Location × ℚ)
  | [] => none
  | location :: rest =>
    let best := nearest_eligible dist p rest
    match location.lat, location.lng with
    | some la, some ln =>
      if la ≠ 0 ∧ ln ≠ 0 then
        match dist p (la, ln) with
        | some d =>
          if d ≠ 0 then
            match best with
            | none => some (location, d)
            | some b => if d ≤ b.2 then some (location, d) else some b
          else best
        | none => best
      else best
    | _, _ => best

/-! ## Helper lemmas -/

section RankHelpers

open MatchingEngine

theorem dist_key_le_trans {a b c : Option ℚ} (h1 : dist_key_le a b) (h2 : dist_key_le b c) :
    dist_key_le a c := by
  cases a <;> cases b <;> cases c <;> simp [MatchingEngine.dist_key_le] at * <;> linarith

theorem dist_key_le_total (a b : Option ℚ) : dist_key_le a b || dist_key_le b a := by
  cases a <;> cases b <;> simp [MatchingEngine.dist_key_le] <;> exact le_total ..

theorem rank_le_trans (a b c : TrialMatch) (h1 : rank_le a b) (h2 : rank_le b c) :
    rank_le a c := by
  simp only [MatchingEngine.rank_le, Bool.or_eq_true, Bool.and_eq_true, decide_eq_true_eq] at h1 h2 ⊢
  rcases h1 with h1 | ⟨h1, h1d⟩ <;> rcases h2 with h2 | ⟨h2, h2d⟩
  · exact Or.inl (h2.trans h1)
  · exact Or.inl (h2 ▸ h1)
  · exact Or.inl (h1 ▸ h2)
  · exact Or.inr ⟨h1.trans h2, dist_key_le_trans h1d h2d⟩

theorem rank_le_total (a b : TrialMatch) : rank_le a b || rank_le b a := by
  simp only [MatchingEngine.rank_le, Bool.or_eq_true, Bool.and_eq_true, decide_eq_true_eq]
  rcases lt_trichotomy a.fit_score b.fit_score with h | h | h
  · exact Or.inr (Or.inl h)
  · have := dist_key_le_total (distance_sort_key a.distance_km) (distance_sort_key b.distance_km)
    rcases Bool.or_eq_true .. |>.mp this with hd | hd
    · exact Or.inl (Or.inr ⟨h, hd⟩)
    · exact Or.inr (Or.inr ⟨h.symm, hd⟩)
  · exact Or.inl (Or.inl h)

theorem dist_key_le_refl (x : Option ℚ) : dist_key_le x x := by
  cases x <;> simp [MatchingEngine.dist_key_le]

theorem rank_le_refl (a : TrialMatch) : rank_le a a := by
  simp [MatchingEngine.rank_le, dist_key_le_refl]

/-- Evaluation of a stable two-element sort. -/
theorem mergeSort_pair {α : Type} (le : α → α → Bool) (a b : α) :
    [a, b].mergeSort le = if le a b then [a, b] else [b, a] := by
  rw [List.mergeSort]
  simp [List.splitInTwo, List.merge, List.mergeSort]

end RankHelpers

section NearestHelpers

open MatchingEngine

/-- Combine the loop accumulator with the best eligible candidate of the
remaining scan; the accumulated (earlier) candidate keeps exact ties
because the loop replaces it only on a strictly smaller distance. -/
def scan_combine : Option (Location × ℚ) → Option (Location × ℚ) → Option (Location × ℚ)
  | acc, none => acc
  | none, some r => some r
  | some b, some r => if r.2 < b.2 then some r else some b

theorem foldl_nearest_step_eq (dist : ℚ × ℚ → ℚ × ℚ → Option ℚ) (p : ℚ × ℚ) :
    ∀ (ls : List Location) (acc : Option (Location × ℚ)),
      ls.foldl (nearest_step dist p) acc = scan_combine acc (nearest_eligible dist p ls) := by
  intro ls
  induction ls with
  | nil => intro acc; cases acc <;> rfl
  | cons location rest ih =>
    intro acc
    rw [List.foldl_cons, ih]
    rcases hla : location.lat with _ | la <;> rcases hln : location.lng with _ | ln <;>
      simp only [MatchingEngine.nearest_step, nearest_eligible, hla, hln]
    by_cases hz : la ≠ 0 ∧ ln ≠ 0
    · rw [if_pos hz, if_pos hz]
      rcases hd : MatchingEngine.calculate_distance dist (some p) (la, ln) with _ | d
      · have hd' : dist p (la, ln) = none := hd
        rw [hd']
      · have hd' : dist p (la, ln) = some d := hd
        simp only [hd']
        by_cases hd0 : d ≠ 0
        · rw [if_pos hd0, if_pos hd0]
          rcases acc with _ | b <;> rcases hbest : nearest_eligible dist p rest with _ | r
          · rfl
          · simp only [scan_combine]
            split_ifs <;> first | rfl | (exfalso; linarith)
          · simp [scan_combine]
          · simp only [scan_combine]
            split_ifs <;> simp [scan_combine] <;> split_ifs <;>
              first | rfl | (exfalso; linarith)
        · rw [if_neg hd0, if_neg hd0]
    · rw [if_neg hz, if_neg hz]


end NearestHelpers

/-! ## Sample data for concrete instantiations -/

/-- A concrete submitted trial dictionary. -/
def sample_trial1 : BatchTrial :=
  { nct_id := some "NCT00000001"
    title := some "Trial One"
    phase := some "PHASE2"
    eligibility_criteria := some "Adults with measurable disease" }

/-- A second concrete submitted trial dictionary. -/
def sample_trial2 : BatchTrial :=
  { nct_id := none
    title := some "Trial Two"
    phase := some "PHASE3"
    eligibility_criteria := none }

/-- A concrete well-formed oracle evaluation. -/
def sample_eval1 : EvalDict :=
  { nct_id := some "NCT00000001"
    fit_score := some 85
    fit_category := some "strong"
    meets_criteria := some ["measurable disease"]
    fails_criteria := some []
    missing_info := some []
    explanation := some "Good fit." }

/-- A concrete oracle evaluation whose category contradicts its score
band (score 90 is in the strong band, category says weak). -/
def mismatch_eval : EvalDict :=
  { nct_id := some "NCT00000002"
    fit_score := some 90
    fit_category := some "weak"
    meets_criteria := some []
    fails_criteria := some []
    missing_info := some []
    explanation := some "Oracle returned an inconsistent pair." }

/-- A match with a present distance of exactly 0 km. -/
def zero_dist_match : TrialMatch :=
  { nct_id := "NCT00000010"
    title := "Zero distance"
    phase := "PHASE2"
    fit_score := 50
    fit_category := "moderate"
    nearest_site := none
    distance_km := some 0
    meets_criteria := []
    fails_criteria := []
    missing_info := []
    explanation := "" }

/-- A match with a present distance of 5 km and the same score. -/
def five_dist_match : TrialMatch :=
  { nct_id := "NCT00000011"
    title := "Five km"
    phase := "PHASE2"
    fit_score := 50
    fit_category := "moderate"
    nearest_site := none
    distance_km := some 5
    meets_criteria := []
    fails_criteria := []
    missing_info := []
    explanation := "" }

/-- A site on the equator: both coordinates present, latitude 0. -/
def equator_site : Location :=
  { facility := "Equator Hospital"
    city := "Quito"
    state := none
    country := "Ecuador"
    lat := some 0
    lng := some 5 }

/-- A concrete total distance function standing in for the geodesic
library in counterexamples (taxicab on the coordinate plane; positive
between distinct points, like any genuine distance). -/
def taxi_dist : ℚ × ℚ → ℚ × ℚ → Option ℚ :=
  fun p q => some (|p.1 - q.1| + |p.2 - q.2|)

/-- A raw registry study with every section absent. -/
def empty_raw_study : ClinicalTrialsService.RawStudy :=
  { nctId := none
    briefTitle := none
    phases := none
    overallStatus := none
    conditions := none
    interventionNames := none
    eligibilityCriteria := none
    minimumAge := none
    maximumAge := none
    sex := none
    sponsorName := none
    locations := none }

/-- A concrete incoming radar alert. -/
def sample_alert : ClinicalRadarService.AlertData :=
  { drug := "Drug-X"
    title := "FDA safety alert"
    category := some "ADVERSE_EVENT"
    severity := some "high"
    description := some "New boxed warning."
    source := some "FDA"
    source_url := some "https://example.org/alert"
    date := some "2026-10-10" }

/-- The branch structure of batch evaluation on a successfully parsed
array, as an equation usable for rewriting. -/
theorem batch_some_eq (trials : List BatchTrial) (evs : List EvalDict) :
    LLMService.batch_evaluate_eligibility trials (some evs) =
      if evs.length < trials.length then
        evs ++ (trials.drop evs.length).map LLMService.batch_pad_eval
      else evs := rfl

/-! ## Claim theorems -/

/-- C1 counterexample: with one submitted trial and an oracle response
that parsed to a two-entry array, batch evaluation returns 2 evaluations,
not exactly N = 1: the source pads a shortfall but never truncates an
oversized oracle array, so the output length is not len(trials)
regardless of the oracle's output length. -/
theorem batch_oversized_cex :
    (LLMService.batch_evaluate_eligibility [sample_trial1]
        (some [sample_eval1, sample_eval1])).length ≠ [sample_trial1].length := by
  decide

/-- C1 (amended): when the parsed oracle array has at most
N = len(trials) entries, batch evaluation returns exactly N evaluations:
the oracle's entries first, in their order, and at every position i
beyond them the placeholder evaluation for trials[i] — fit_score 40,
fit_category "weak", empty criteria lists, missing_info
["Evaluation not completed"].  (An array longer than N is returned
unchanged, as the counterexample shows.) -/
theorem batch_pads_shortfall (trials : List BatchTrial) (evs : List EvalDict)
    (h : evs.length ≤ trials.length) :
    (LLMService.batch_evaluate_eligibility trials (some evs)).length = trials.length ∧
    (∀ i, i < evs.length →
      (LLMService.batch_evaluate_eligibility trials (some evs))[i]? = evs[i]?) ∧
    (∀ i, evs.length ≤ i → i < trials.length →
      (LLMService.batch_evaluate_eligibility trials (some evs))[i]? =
        (trials[i]?).map fun t =>
          { nct_id := some (t.nct_id.getD "Unknown")
            fit_score := some 40
            fit_category := some "weak"
            meets_criteria := some []
            fails_criteria := some []
            missing_info := some ["Evaluation not completed"]
            explanation := some "Trial needs manual review." }) := by
  rcases lt_or_eq_of_le h with hlt | heq
  · rw [batch_some_eq, if_pos hlt]
    refine ⟨?_, ?_, ?_⟩
    · simp only [List.length_append, List.length_map, List.length_drop]
      omega
    · intro i hi
      rw [List.getElem?_append_left hi]
    · intro i hge hlt2
      rw [List.getElem?_append_right hge, List.getElem?_map, List.getElem?_drop]
      have hidx : evs.length + (i - evs.length) = i := by omega
      rw [hidx]
      rfl
  · rw [batch_some_eq, if_neg (by omega)]
    exact ⟨heq, fun i hi => rfl, fun i hge hlt2 => absurd hlt2 (by omega)⟩

/-- C1 witness: two submitted trials, a one-entry parsed oracle array. -/
theorem batch_pads_shortfall_witness :
    ([sample_eval1] : List EvalDict).length ≤ [sample_trial1, sample_trial2].length ∧
    (LLMService.batch_evaluate_eligibility [sample_trial1, sample_trial2]
        (some [sample_eval1])).length = [sample_trial1, sample_trial2].length :=
  ⟨by decide, (batch_pads_shortfall [sample_trial1, sample_trial2] [sample_eval1] (by decide)).1⟩

/-- C3 counterexample: an oracle evaluation carrying fit_score 90 with
fit_category "weak" is returned by the evaluator unchanged, so the
returned category does not agree with the [80,100] → "strong" band. -/
theorem category_passthrough_cex :
    LLMService.evaluate_eligibility (some mismatch_eval) = mismatch_eval ∧
    ¬ eval_band_ok (LLMService.evaluate_eligibility (some mismatch_eval)) :=
  ⟨rfl, by decide⟩

/-- C3 (amended): every degraded evaluation the evaluator synthesizes
itself satisfies the band invariant — the single-evaluation error
fallback (score 30, "weak"), every whole-batch-failure evaluation and
every batch shortfall padding entry (score 40, "weak").  Oracle-parsed
evaluations are passed through without re-validation (see the
counterexample), so for them the invariant holds only if the oracle's
response already satisfied it. -/
theorem degraded_evaluations_band_ok (trials : List BatchTrial)
    (evs : List EvalDict) (i : ℕ) (hi : evs.length ≤ i) :
    eval_band_ok (LLMService.evaluate_eligibility none) ∧
    (∀ e ∈ LLMService.batch_evaluate_eligibility trials none, eval_band_ok e) ∧
    (∀ e, (LLMService.batch_evaluate_eligibility trials (some evs))[i]? = some e →
      eval_band_ok e) := by
  refine ⟨by decide, ?_, ?_⟩
  · intro e he
    simp only [LLMService.batch_evaluate_eligibility, List.mem_map] at he
    obtain ⟨t, _, rfl⟩ := he
    simp only [eval_band_ok, LLMService.batch_fail_eval, Option.getD_some]
    decide
  · intro e he
    rw [batch_some_eq] at he
    by_cases hlt : evs.length < trials.length
    · rw [if_pos hlt, List.getElem?_append_right hi, List.getElem?_map] at he
      rcases hm : (trials.drop evs.length)[i - evs.length]? with _ | t
      · rw [hm] at he; simp at he
      · rw [hm] at he
        simp only [Option.map_some', Option.some.injEq] at he
        subst he
        simp only [eval_band_ok, LLMService.batch_pad_eval, Option.getD_some]
        decide
    · rw [if_neg hlt] at he
      rw [List.getElem?_eq_none hi] at he
      exact absurd he (by simp)

/-- C3 witness: the degraded paths at a concrete trial list. -/
theorem degraded_evaluations_band_ok_witness :
    eval_band_ok (LLMService.evaluate_eligibility none) ∧
    (∀ e ∈ LLMService.batch_evaluate_eligibility [sample_trial1] none, eval_band_ok e) ∧
    (∀ e, (LLMService.batch_evaluate_eligibility [sample_trial1] (some []))[0]? = some e →
      eval_band_ok e) :=
  degraded_evaluations_band_ok [sample_trial1] [] 0 (by decide)

/-- C6: on any oracle failure or JSON parse/validation failure, both
profile extractors return the minimal profile — condition "Unknown" and
every other field its default/absent value.  The embedding is a total
function of the failure outcome, so no failure escapes to the caller. -/
theorem extract_profile_fallback (oracleText : Option String)
    (parse : String → Option PatientProfile)
    (hfail : ∀ raw, oracleText = some raw →
      parse (strip_code_fences (py_strip raw)) = none) :
    LLMService.extract_patient_profile oracleText parse =
      { condition := "Unknown", condition_normalized := none, histology := none,
        stage := none, line_of_therapy := none, prior_treatments := [],
        current_treatments := none, biomarkers := [], ecog := none, age := none,
        sex := none, cns_involvement := none, metastatic_sites := none,
        comorbidities := none, organ_function := none, location := none } ∧
    LLMService.extract_profile_from_image oracleText parse =
      { condition := "Unknown", condition_normalized := none, histology := none,
        stage := none, line_of_therapy := none, prior_treatments := [],
        current_treatments := none, biomarkers := [], ecog := none, age := none,
        sex := none, cns_involvement := none, metastatic_sites := none,
        comorbidities := none, organ_function := none, location := none } := by
  cases oracleText with
  | none => exact ⟨rfl, rfl⟩
  | some raw =>
    have h := hfail raw rfl
    constructor
    · simp [LLMService.extract_patient_profile, h, LLMService.minimal_profile]
    · simp [LLMService.extract_profile_from_image, h, LLMService.minimal_profile]

/-- C6 witness: a concrete unparseable oracle response. -/
theorem extract_profile_fallback_witness :
    LLMService.extract_patient_profile (some "this is not json") (fun _ => none) =
      { condition := "Unknown", condition_normalized := none, histology := none,
        stage := none, line_of_therapy := none, prior_treatments := [],
        current_treatments := none, biomarkers := [], ecog := none, age := none,
        sex := none, cns_involvement := none, metastatic_sites := none,
        comorbidities := none, organ_function := none, location := none } :=
  (extract_profile_fallback (some "this is not json") (fun _ => none)
    (fun _ _ => rfl)).1

/-- C2 counterexample: two matches with equal fit_score 50 and present
distances 0 km and 5 km.  The sort key maps the falsy distance 0.0 to
float('inf'), so the ranked output is [5 km, 0 km], which violates the
claimed order (distance ascending with only absent distances last): the
present 0 km distance would have to come first. -/
theorem rank_order_cex :
    MatchingEngine.rank_matches [zero_dist_match, five_dist_match] 10 =
      [five_dist_match, zero_dist_match] ∧
    ¬ List.Pairwise claimed_rank_le
        (MatchingEngine.rank_matches [zero_dist_match, five_dist_match] 10) := by
  have e1 : MatchingEngine.rank_matches [zero_dist_match, five_dist_match] 10 =
      [five_dist_match, zero_dist_match] := by
    unfold MatchingEngine.rank_matches MatchingEngine.rank_sort
    rw [mergeSort_pair, if_neg (by decide)]
    rfl
  refine ⟨e1, ?_⟩
  rw [e1]
  intro h
  have h2 := List.rel_of_pairwise_cons h (List.mem_cons_self _ _)
  rcases h2 with h2 | ⟨h2eq, h2d⟩
  · simp [five_dist_match, zero_dist_match] at h2
  · norm_num [five_dist_match, zero_dist_match] at h2d

/-- C2 (amended): for every input list of matches and every maxResults,
the ranked output has length at most maxResults and is sorted by the key
the code actually uses: fit_score descending, ties by distance_km
ascending where a distance that is absent *or zero* orders after every
present nonzero distance (Python truthiness sends both None and 0.0 to
float('inf')).  In particular the output is sorted by fit_score
descending. -/
theorem rank_matches_sorted (ms : List TrialMatch) (max_results : ℕ) :
    (MatchingEngine.rank_matches ms max_results).length ≤ max_results ∧
    (MatchingEngine.rank_matches ms max_results).Pairwise
      (fun a b => MatchingEngine.rank_le a b = true) ∧
    (MatchingEngine.rank_matches ms max_results).Pairwise
      (fun a b => b.fit_score ≤ a.fit_score) := by
  have hsorted : (MatchingEngine.rank_sort ms).Pairwise
      (fun a b => MatchingEngine.rank_le a b = true) :=
    List.sorted_mergeSort rank_le_trans rank_le_total ms
  have htake : (MatchingEngine.rank_matches ms max_results).Pairwise
      (fun a b => MatchingEngine.rank_le a b = true) :=
    List.Pairwise.sublist (List.take_sublist _ _) hsorted
  refine ⟨List.length_take_le _ _, htake, htake.imp ?_⟩
  intro a b hab
  simp only [MatchingEngine.rank_le, Bool.or_eq_true, Bool.and_eq_true,
    decide_eq_true_eq] at hab
  rcases hab with hab | ⟨hab, _⟩
  · exact le_of_lt hab
  · exact le_of_eq hab.symm

/-- C7: when trial retrieval yields no candidates — the registry request
failed, or the registry returned zero studies — the pipeline returns an
empty match list and the batch-evaluation stage is never reached (the
flag in the second component records whether it was). -/
theorem match_empty_without_evaluation (oracleEvals : Option (List EvalDict)) :
    ClinicalTrialsService.match_patient_to_trials none oracleEvals = ([], false) ∧
    ClinicalTrialsService.match_patient_to_trials (some []) oracleEvals = ([], false) :=
  ⟨rfl, rfl⟩

/-- C9: ranking is idempotent — a list already sorted by the ranker's own
sort key and no longer than maxResults is returned unchanged — and the
sort stage is stable: any two matches that tie exactly on both fit_score
and distance_km keep their relative input order in every sorted output. -/
theorem rank_matches_idempotent (ms : List TrialMatch) (max_results : ℕ)
    (hs : ms.Pairwise fun a b => MatchingEngine.rank_le a b = true)
    (hn : ms.length ≤ max_results) :
    MatchingEngine.rank_matches ms max_results = ms ∧
    ∀ (l : List TrialMatch) (a b : TrialMatch),
      a.fit_score = b.fit_score → a.distance_km = b.distance_km →
      List.Sublist [a, b] l → List.Sublist [a, b] (MatchingEngine.rank_sort l) := by
  constructor
  · unfold MatchingEngine.rank_matches MatchingEngine.rank_sort
    rw [List.mergeSort_of_sorted hs]
    exact List.take_of_length_le hn
  · intro l a b hf hd hsub
    apply List.pair_sublist_mergeSort rank_le_trans rank_le_total ?_ hsub
    have hdk : MatchingEngine.dist_key_le (MatchingEngine.distance_sort_key a.distance_km)
        (MatchingEngine.distance_sort_key b.distance_km) = true := by
      rw [hd]; exact dist_key_le_refl _
    simp [MatchingEngine.rank_le, hf, hdk]

/-- C9 witness: a concrete sorted two-element list under bound 5. -/
theorem rank_matches_idempotent_witness :
    MatchingEngine.rank_matches [five_dist_match, zero_dist_match] 5 =
      [five_dist_match, zero_dist_match] :=
  (rank_matches_idempotent [five_dist_match, zero_dist_match] 5
    (by simp [List.pairwise_cons]; decide) (by decide)).1

/-- C4 counterexample: origin (10, 10) present and a single candidate
whose coordinates are both present (lat 0, lng 5, a site on the
equator).  The claimed scan returns that candidate with its distance
(15 under the concrete distance function); the code's truthiness test
`if location.lat and location.lng` treats latitude 0.0 as absent and
returns (none, none). -/
theorem find_nearest_site_cex :
    MatchingEngine.find_nearest_site taxi_dist (some (10, 10)) [equator_site] =
      (none, none) ∧
    nearest_claimed taxi_dist (10, 10) [equator_site] = some (equator_site, 15) := by
  constructor
  · decide
  · show nearest_claimed taxi_dist (10, 10) [equator_site] = some (equator_site, 15)
    norm_num [nearest_claimed, taxi_dist, equator_site]

/-- C4 (amended): with a present origin, the scan considers exactly the
candidates whose lat and lng are both present *and nonzero* and whose
computed distance is defined and *nonzero*; among those it returns the
first one of minimum distance, together with that distance, and
(none, none) when no candidate qualifies.  With an absent origin it
returns (none, none).  (An empty candidate list also yields (none, none),
through either branch.) -/
theorem find_nearest_site_amended (dist : ℚ × ℚ → ℚ × ℚ → Option ℚ)
    (p : ℚ × ℚ) (ls : List Location) :
    MatchingEngine.find_nearest_site dist (some p) ls =
      ((nearest_eligible dist p ls).map Prod.fst,
       (nearest_eligible dist p ls).map Prod.snd) ∧
    MatchingEngine.find_nearest_site dist none ls = (none, none) := by
  refine ⟨?_, rfl⟩
  cases ls with
  | nil => rfl
  | cons x xs =>
    simp only [MatchingEngine.find_nearest_site, List.isEmpty_cons, Bool.false_eq_true,
      if_false]
    rw [foldl_nearest_step_eq]
    cases nearest_eligible dist p (x :: xs) <;> simp [scan_combine]

/-- C5 counterexample: treatment "Drug-X", oracle text "no structured
update available" (non-empty, fence-free), the regex finds no object
containing "drug", the direct JSON parse fails and the grounding
metadata yields zero citations.  The claim demands found_update = false;
the code instead synthesizes a finding from the raw text with
found_update = true (only the empty sources list holds). -/
theorem ambient_search_unparseable_cex :
    (ClinicalRadarService.perform_ambient_search "Drug-X" "2026-10-12"
        (.success "no structured update available" [])
        (fun _ => .noMatch) (fun _ => none)).found_update = true ∧
    (ClinicalRadarService.perform_ambient_search "Drug-X" "2026-10-12"
        (.success "no structured update available" [])
        (fun _ => .noMatch) (fun _ => none)).sources = some [] := by
  constructor
  · decide
  · decide

/-- C5 (amended): whenever the stripped oracle text is non-empty, the
regex extraction finds no match, the direct JSON parse fails and the
grounding metadata yields zero citations, the scanner returns the
synthesized finding: found_update = true, category TRIAL_UPDATE, the
first 500 characters of the fence-stripped text as description, source
"Google Search", and an empty sources list. -/
theorem ambient_search_unparseable_text (treatment today rawText : String)
    (regexExtract : String → ClinicalRadarService.RegexOutcome)
    (jsonParse : String → Option ClinicalRadarService.Finding)
    (h0 : py_str_empty (py_strip rawText) = false)
    (hre : regexExtract (strip_code_fences (py_strip rawText)) =
      ClinicalRadarService.RegexOutcome.noMatch)
    (hjs : jsonParse (strip_code_fences (py_strip rawText)) = none)
    (h1 : py_str_empty (strip_code_fences (py_strip rawText)) = false) :
    ClinicalRadarService.perform_ambient_search treatment today
        (.success rawText []) regexExtract jsonParse =
      { drug := treatment
        found_update := true
        category := some "TRIAL_UPDATE"
        severity := some "medium"
        title := some ("Update for " ++ treatment)
        description := py_take 500 (strip_code_fences (py_strip rawText))
        date := some today
        source := some "Google Search"
        source_url := some ""
        sources := some [] } := by
  simp only [ClinicalRadarService.perform_ambient_search, h0, hre, hjs, h1,
    Bool.false_eq_true, if_false, not_false_iff, if_true]
  rfl

/-- C5 witness: a concrete plain-prose oracle response. -/
theorem ambient_search_unparseable_text_witness :
    ClinicalRadarService.perform_ambient_search "Drug-X" "2026-10-12"
        (.success "plain text update" []) (fun _ => .noMatch) (fun _ => none) =
      { drug := "Drug-X"
        found_update := true
        category := some "TRIAL_UPDATE"
        severity := some "medium"
        title := some ("Update for " ++ "Drug-X")
        description := py_take 500 (strip_code_fences (py_strip "plain text update"))
        date := some "2026-10-12"
        source := some "Google Search"
        source_url := some ""
        sources := some [] } :=
  ambient_search_unparseable_text "Drug-X" "2026-10-12" "plain text update"
    (fun _ => .noMatch) (fun _ => none) (by decide) rfl rfl (by decide)

/-- C10: every match returned by the ct_service pipeline has
distance_km = none, and its nearest_site is its trial's first parsed
location (or none when the trial has no locations): no distance
computation or nearest-site scan happens on this path. -/
theorem ct_matches_have_no_distance
    (registry : Option (List ClinicalTrialsService.RawStudy))
    (oracleEvals : Option (List EvalDict)) (m : TrialMatch)
    (hm : m ∈ (ClinicalTrialsService.match_patient_to_trials registry oracleEvals).1) :
    m.distance_km = none ∧
    ∃ trial ∈ ClinicalTrialsService.search_trials registry,
      m.nct_id = trial.nct_id ∧
      m.nearest_site = trial.locations.head?.map ClinicalTrialsService.first_location_site := by
  unfold ClinicalTrialsService.match_patient_to_trials at hm
  by_cases he : (ClinicalTrialsService.search_trials registry).isEmpty
  · rw [if_pos he] at hm
    simp at hm
  · rw [if_neg he] at hm
    simp only [List.mem_mergeSort, List.mem_map] at hm
    obtain ⟨⟨i, trial⟩, hp, rfl⟩ := hm
    exact ⟨rfl, trial, List.getElem?_mem (List.mk_mem_enum_iff_getElem?.mp hp), rfl, rfl⟩

/-- C10 witness: one registry study with every field absent, oracle
failure; the single resulting match. -/
theorem ct_matches_have_no_distance_witness :
    ({ nct_id := "", title := "", phase := "N/A", fit_score := 40,
       fit_category := "weak", nearest_site := none, distance_km := none,
       meets_criteria := [], fails_criteria := [],
       missing_info := ["Batch evaluation failed"],
       explanation := "Could not evaluate. Please review manually." } : TrialMatch).distance_km
        = none ∧
    ∃ trial ∈ ClinicalTrialsService.search_trials (some [empty_raw_study]),
      ({ nct_id := "", title := "", phase := "N/A", fit_score := 40,
         fit_category := "weak", nearest_site := none, distance_km := none,
         meets_criteria := [], fails_criteria := [],
         missing_info := ["Batch evaluation failed"],
         explanation := "Could not evaluate. Please review manually." } : TrialMatch).nct_id
          = trial.nct_id ∧
      ({ nct_id := "", title := "", phase := "N/A", fit_score := 40,
         fit_category := "weak", nearest_site := none, distance_km := none,
         meets_criteria := [], fails_criteria := [],
         missing_info := ["Batch evaluation failed"],
         explanation := "Could not evaluate. Please review manually." } : TrialMatch).nearest_site
          = trial.locations.head?.map ClinicalTrialsService.first_location_site :=
  ct_matches_have_no_distance (some [empty_raw_study]) none _ (by
    have hres : (ClinicalTrialsService.match_patient_to_trials (some [empty_raw_study]) none).1 =
        List.mergeSort
          [ClinicalTrialsService.build_match
              (ClinicalTrialsService.parse_study empty_raw_study)
              (LLMService.batch_fail_eval
                (ClinicalTrialsService.to_batch_trial
                  (ClinicalTrialsService.parse_study empty_raw_study)))]
          ClinicalTrialsService.fit_desc := rfl
    rw [hres, List.mergeSort_singleton]
    decide)

/-- One saving step of `save_alerts`, as an equation for rewriting. -/
theorem save_alerts_cons (today : String) (store : List ClinicalRadarService.StoredAlert)
    (a : ClinicalRadarService.AlertData) (rest : List ClinicalRadarService.AlertData) :
    ClinicalRadarService.save_alerts today store (a :: rest) =
      ClinicalRadarService.save_alerts today
        (if store.any (ClinicalRadarService.same_key a.drug a.title) then store
         else store ++ [ClinicalRadarService.new_alert_row today a]) rest := rfl

/-- The (drug, title) count of the store after `save_alerts`: it becomes
1 when the key was absent and some saved alert carries it, and is
unchanged otherwise. -/
theorem save_alerts_count (today d t : String) :
    ∀ (alerts : List ClinicalRadarService.AlertData)
      (store : List ClinicalRadarService.StoredAlert),
      (ClinicalRadarService.save_alerts today store alerts).countP
          (ClinicalRadarService.same_key d t) =
        if store.countP (ClinicalRadarService.same_key d t) = 0 ∧
            alerts.any (fun a => a.drug == d && a.title == t) = true
        then 1 else store.countP (ClinicalRadarService.same_key d t) := by
  intro alerts
  induction alerts with
  | nil =>
    intro store
    simp [ClinicalRadarService.save_alerts]
  | cons a rest ih =>
    intro store
    rw [save_alerts_cons, ih]
    by_cases hak : (a.drug == d && a.title == t) = true
    · have had : a.drug = d := by
        have := (Bool.and_eq_true ..).mp hak
        exact beq_iff_eq.mp this.1
      have hat : a.title = t := by
        have := (Bool.and_eq_true ..).mp hak
        exact beq_iff_eq.mp this.2
      subst had hat
      by_cases hdup : store.any (ClinicalRadarService.same_key a.drug a.title) = true
      · rw [if_pos hdup]
        have hpos : store.countP (ClinicalRadarService.same_key a.drug a.title) ≠ 0 := by
          intro hz
          rcases List.any_eq_true.mp hdup with ⟨x, hx, hkx⟩
          exact absurd hkx (List.countP_eq_zero.mp hz x hx)
        rw [if_neg (by tauto), if_neg (by tauto)]
      · rw [if_neg hdup]
        have hzero : store.countP (ClinicalRadarService.same_key a.drug a.title) = 0 := by
          rw [List.countP_eq_zero]
          intro x hx hkx
          exact absurd (List.any_eq_true.mpr ⟨x, hx, hkx⟩) hdup
        have hrow : ClinicalRadarService.same_key a.drug a.title
            (ClinicalRadarService.new_alert_row today a) = true := by
          simp [ClinicalRadarService.same_key, ClinicalRadarService.new_alert_row]
        rw [List.countP_append, hzero]
        have hone : ([ClinicalRadarService.new_alert_row today a].countP
            (ClinicalRadarService.same_key a.drug a.title)) = 1 := by
          simp [List.countP_cons, hrow]
        rw [hone]
        simp [List.any_cons]
    · have hanyc : ((a :: rest).any (fun x => x.drug == d && x.title == t)) =
          rest.any (fun x => x.drug == d && x.title == t) := by
        simp [List.any_cons, hak]
      by_cases hdup : store.any (ClinicalRadarService.same_key a.drug a.title) = true
      · rw [if_pos hdup, hanyc]
      · rw [if_neg hdup]
        have hrow : ClinicalRadarService.same_key d t
            (ClinicalRadarService.new_alert_row today a) = false := by
          simp only [ClinicalRadarService.same_key, ClinicalRadarService.new_alert_row]
          simpa using hak
        have hcount : (store ++ [ClinicalRadarService.new_alert_row today a]).countP
            (ClinicalRadarService.same_key d t) =
            store.countP (ClinicalRadarService.same_key d t) := by
          rw [List.countP_append]
          simp [List.countP_cons, hrow]
        rw [hcount, hanyc]

/-- C8: (drug, title) deduplication of the alert store: saving preserves
"at most one stored alert per key", and saving any batch that contains a
given key into a store without it — also a batch holding that key twice —
leaves exactly one stored alert with that key. -/
theorem save_alerts_dedup (today : String)
    (store : List ClinicalRadarService.StoredAlert)
    (alerts : List ClinicalRadarService.AlertData) (d t : String)
    (h1 : store.countP (ClinicalRadarService.same_key d t) ≤ 1) :
    (ClinicalRadarService.save_alerts today store alerts).countP
        (ClinicalRadarService.same_key d t) ≤ 1 ∧
    (store.countP (ClinicalRadarService.same_key d t) = 0 →
      (∃ a ∈ alerts, a.drug = d ∧ a.title = t) →
      (ClinicalRadarService.save_alerts today store alerts).countP
          (ClinicalRadarService.same_key d t) = 1) := by
  have hkey := save_alerts_count today d t alerts store
  constructor
  · rw [hkey]
    split_ifs with hc
    · exact le_refl 1
    · exact h1
  · intro hc0 hex
    rw [hkey, if_pos]
    refine ⟨hc0, List.any_eq_true.mpr ?_⟩
    obtain ⟨a, ha, had, hat⟩ := hex
    exact ⟨a, ha, by simp [had, hat]⟩

/-- C8 witness: saving the same alert twice into an empty store leaves
exactly one row with its key. -/
theorem save_alerts_dedup_witness :
    (ClinicalRadarService.save_alerts "2026-10-12" [] [sample_alert, sample_alert]).countP
        (ClinicalRadarService.same_key "Drug-X" "FDA safety alert") = 1 :=
  (save_alerts_dedup "2026-10-12" [] [sample_alert, sample_alert]
      "Drug-X" "FDA safety alert" (by decide)).2 (by decide)
    ⟨sample_alert, by simp, rfl, rfl⟩
